import Mathlib

/-!
Verification of the identifier-unification and location-encoding layer of
`src/librustc_save_analysis/data.rs`.

Shallow embedding conventions:
* `NodeId` is a `u32` in the source (`syntax::ast::NodeId`); it is modelled as
  `Nat`, with `< 2^32` bounds added as hypotheses where they matter.
* `usize` arithmetic in `normalize_node_id` is modelled as exact `Nat`
  addition (a 64-bit `usize` cannot overflow on a `u32` node id plus a
  definition count).
* The `as u32` cast performed by the `impl_normalize!` macro is modelled as
  `% 4294967296` (`2^32`).
* `tcx.map.opt_local_def_id` and `tcx.map.num_local_def_ids` are the resolver
  boundary (external to this file's source); they are modelled as the two
  fields of `TyCtxt`.
* `cm.lookup_char_pos` is the source-map boundary; it is modelled as a
  function from a byte position to a `Loc` (file, 1-based line, 0-based
  character column), exactly the data the source reads from its result.
-/

/-- A crate-global definition id: `rustc::hir::def_id::DefId` with a crate
number and a `u32` index (`id.index.as_usize()` reads the index). -/
structure DefId where
  krate : Nat
  index : Nat
deriving DecidableEq

/-- A transient source span (`syntax::codemap::Span`): raw byte offsets
`lo`/`hi` (`BytePos` is a `u32` newtype; `span.lo.0` reads the raw value).
Interpreting a `Span` requires the code map. -/
structure Span where
  lo : Nat
  hi : Nat
deriving DecidableEq

/-- A source file entry of the code map; the source reads `start.file.name`. -/
structure FileMap where
  name : String
deriving DecidableEq

/-- Result of `cm.lookup_char_pos`: the containing file, the 1-based line
number, and the 0-based character column (`CharPos`). -/
structure Loc where
  file : FileMap
  line : Nat
  col : Nat
deriving DecidableEq

/-- The source-map service (`syntax::codemap::CodeMap`), modelled by the one
method the source calls: `lookup_char_pos`, translating a byte position into
file/line/column. -/
structure CodeMap where
  lookup_char_pos : Nat → Loc

/-- The resolver boundary used by `normalize_node_id`: `tcx.map`'s
`opt_local_def_id` (does this node have a `DefId`, and which) and
`num_local_def_ids` (how many local def ids the unit has). -/
structure TyCtxt where
  opt_local_def_id : Nat → Option DefId
  num_local_def_ids : Nat

/-- Portable location record `SpanData`: file name, byte offsets, 1-based
line range and 1-based character-offset column range. -/
structure SpanData where
  file_name : String
  byte_start : Nat
  byte_end : Nat
  line_start : Nat
  line_end : Nat
  column_start : Nat
  column_end : Nat
deriving DecidableEq

/-- `SpanData::from_span`: look up both span endpoints in the code map and
assemble the self-contained record, adding 1 to each 0-based column. -/
def SpanData.from_span (span : Span) (cm : CodeMap) : SpanData :=
  let start := cm.lookup_char_pos span.lo
  let stop := cm.lookup_char_pos span.hi
  { file_name := start.file.name
    byte_start := span.lo
    byte_end := span.hi
    line_start := start.line
    line_end := stop.line
    column_start := start.col + 1
    column_end := stop.col + 1 }

/-- `CrateData`. -/
structure CrateData where
  name : String
  number : Nat
  span : Span

/-- `ExternalCrateData`: external crates in the prelude of a crate. -/
structure ExternalCrateData where
  name : String
  num : Nat
  file_name : String

/-- `CratePreludeData`: data for the prelude of a crate. -/
structure CratePreludeData where
  crate_name : String
  crate_root : String
  external_crates : List ExternalCrateData
  span : Span

/-- `EnumData`: data for enum declarations. -/
structure EnumData where
  id : Nat
  value : String
  qualname : String
  span : Span
  scope : Nat
deriving DecidableEq

/-- `ExternCrateData`: data for extern crates. -/
structure ExternCrateData where
  id : Nat
  name : String
  crate_num : Nat
  location : String
  span : Span
  scope : Nat
deriving DecidableEq

/-- `FunctionCallData`: data about a function call. -/
structure FunctionCallData where
  span : Span
  scope : Nat
  ref_id : DefId
deriving DecidableEq

/-- `FunctionData`: data for all kinds of functions and methods. -/
structure FunctionData where
  id : Nat
  name : String
  qualname : String
  declaration : Option DefId
  span : Span
  scope : Nat
deriving DecidableEq

/-- `FunctionRefData`: data about a function ref. -/
structure FunctionRefData where
  span : Span
  scope : Nat
  ref_id : DefId
deriving DecidableEq

/-- `ImplData`. -/
structure ImplData where
  id : Nat
  span : Span
  scope : Nat
  trait_ref : Option DefId
  self_ref : Option DefId
deriving DecidableEq

/-- `TypeRefData`: data for a reference to a type or trait. -/
structure TypeRefData where
  span : Span
  scope : Nat
  ref_id : Option DefId
  qualname : String
deriving DecidableEq

/-- `ImplData2`: the impl-data shape actually used by the `Data` enum (the
source marks it FIXME; it carries inline `TypeRefData` references). -/
structure ImplData2 where
  id : Nat
  span : Span
  scope : Nat
  trait_ref : Option TypeRefData
  self_ref : Option TypeRefData
deriving DecidableEq

/-- `InheritanceData`: data for trait inheritance. -/
structure InheritanceData where
  span : Span
  base_id : DefId
  deriv_id : Nat
deriving DecidableEq

/-- `MacroData`: data about a macro declaration. -/
structure MacroData where
  span : Span
  name : String
  qualname : String
deriving DecidableEq

/-- `MacroUseData`: data about a macro use. -/
structure MacroUseData where
  span : Span
  name : String
  qualname : String
  callee_span : Span
  scope : Nat
  imported : Bool
deriving DecidableEq

/-- `MethodCallData`: data about a method call; both reference fields are
optional. -/
structure MethodCallData where
  span : Span
  scope : Nat
  ref_id : Option DefId
  decl_id : Option DefId
deriving DecidableEq

/-- `MethodData`: data for method declarations. -/
structure MethodData where
  id : Nat
  qualname : String
  span : Span
  scope : Nat
deriving DecidableEq

/-- `ModData`: data for modules. -/
structure ModData where
  id : Nat
  name : String
  qualname : String
  span : Span
  scope : Nat
  filename : String
deriving DecidableEq

/-- `ModRefData`: data for a reference to a module. -/
structure ModRefData where
  span : Span
  scope : Nat
  ref_id : Option DefId
  qualname : String
deriving DecidableEq

/-- `StructData`. -/
structure StructData where
  span : Span
  id : Nat
  ctor_id : Nat
  qualname : String
  scope : Nat
  value : String
deriving DecidableEq

/-- `StructVariantData`. -/
structure StructVariantData where
  span : Span
  id : Nat
  qualname : String
  type_value : String
  value : String
  scope : Nat
deriving DecidableEq

/-- `TraitData`. -/
structure TraitData where
  span : Span
  id : Nat
  qualname : String
  scope : Nat
  value : String
deriving DecidableEq

/-- `TupleVariantData`. -/
structure TupleVariantData where
  span : Span
  id : Nat
  name : String
  qualname : String
  type_value : String
  value : String
  scope : Nat
deriving DecidableEq

/-- `TypedefData`: data for a typedef. -/
structure TypedefData where
  id : Nat
  span : Span
  qualname : String
  value : String
deriving DecidableEq

/-- `UseData`: data for a use statement. -/
structure UseData where
  id : Nat
  span : Span
  name : String
  mod_id : Option DefId
  scope : Nat
deriving DecidableEq

/-- `UseGlobData`: data for a global use statement. -/
structure UseGlobData where
  id : Nat
  span : Span
  names : List String
  scope : Nat
deriving DecidableEq

/-- `VariableData`: data for local and global variables and fields. -/
structure VariableData where
  id : Nat
  name : String
  qualname : String
  span : Span
  scope : Nat
  value : String
  type_value : String
deriving DecidableEq

/-- `VariableRefData`: data for the use of some variable; its `ref_id`
target is a required `DefId`, not an optional one. -/
structure VariableRefData where
  name : String
  span : Span
  scope : Nat
  ref_id : DefId
deriving DecidableEq

/-- The closed `Data` enum of fact variants. Note that its impl variant
holds an `ImplData2`, not an `ImplData`, and that the source spells the
struct-variant constructor `StructVariantDat`. -/
inductive Data where
  | DataEnum (d : EnumData)
  | DataExternCrate (d : ExternCrateData)
  | DataFunctionCall (d : FunctionCallData)
  | DataFunction (d : FunctionData)
  | DataFunctionRef (d : FunctionRefData)
  | DataImpl (d : ImplData2)
  | DataInheritance (d : InheritanceData)
  | DataMacro (d : MacroData)
  | DataMacroUse (d : MacroUseData)
  | DataMethodCall (d : MethodCallData)
  | DataMethod (d : MethodData)
  | DataMod (d : ModData)
  | DataModRef (d : ModRefData)
  | DataStruct (d : StructData)
  | StructVariantDat (d : StructVariantData)
  | DataTrait (d : TraitData)
  | DataTupleVariant (d : TupleVariantData)
  | DataTypeDef (d : TypedefData)
  | DataTypeRef (d : TypeRefData)
  | DataUse (d : UseData)
  | DataUseGlob (d : UseGlobData)
  | DataVariable (d : VariableData)
  | DataVariableRef (d : VariableRefData)

/-- `normalize_node_id`: if the resolver reports a `DefId` for the node, use
that `DefId`'s index (`id.index.as_usize()`); otherwise offset the node id by
the unit's `num_local_def_ids`. -/
def normalize_node_id (tcx : TyCtxt) (id : Nat) : Nat :=
  match tcx.opt_local_def_id id with
  | some d => d.index
  | none => id + tcx.num_local_def_ids

/-- The store step performed by the `impl_normalize!` macro for each
registered field: `normalize_node_id(tcx, field) as u32`, i.e. reduction
modulo `2^32`. -/
def stored_node_id (tcx : TyCtxt) (id : Nat) : Nat :=
  normalize_node_id tcx id % 4294967296

/-- `EnumData::normalize` (registered fields: `id, scope`). -/
def EnumData.normalize (self : EnumData) (tcx : TyCtxt) : EnumData :=
  { self with id := stored_node_id tcx self.id, scope := stored_node_id tcx self.scope }

/-- `ExternCrateData::normalize` (registered fields: `id, scope`). -/
def ExternCrateData.normalize (self : ExternCrateData) (tcx : TyCtxt) : ExternCrateData :=
  { self with id := stored_node_id tcx self.id, scope := stored_node_id tcx self.scope }

/-- `FunctionCallData::normalize` (registered field: `scope`). -/
def FunctionCallData.normalize (self : FunctionCallData) (tcx : TyCtxt) : FunctionCallData :=
  { self with scope := stored_node_id tcx self.scope }

/-- `FunctionData::normalize` (registered fields: `id, scope`). -/
def FunctionData.normalize (self : FunctionData) (tcx : TyCtxt) : FunctionData :=
  { self with id := stored_node_id tcx self.id, scope := stored_node_id tcx self.scope }

/-- `FunctionRefData::normalize` (registered field: `scope`). -/
def FunctionRefData.normalize (self : FunctionRefData) (tcx : TyCtxt) : FunctionRefData :=
  { self with scope := stored_node_id tcx self.scope }

/-- `ImplData::normalize` (registered fields: `id, scope`); note the `Data`
enum uses `ImplData2`, for which no normalize is implemented. -/
def ImplData.normalize (self : ImplData) (tcx : TyCtxt) : ImplData :=
  { self with id := stored_node_id tcx self.id, scope := stored_node_id tcx self.scope }

/-- `InheritanceData::normalize` (registered field: `deriv_id`). -/
def InheritanceData.normalize (self : InheritanceData) (tcx : TyCtxt) : InheritanceData :=
  { self with deriv_id := stored_node_id tcx self.deriv_id }

/-- `MacroUseData::normalize` (registered field: `scope`). -/
def MacroUseData.normalize (self : MacroUseData) (tcx : TyCtxt) : MacroUseData :=
  { self with scope := stored_node_id tcx self.scope }

/-- `MethodCallData::normalize` (registered field: `scope`). -/
def MethodCallData.normalize (self : MethodCallData) (tcx : TyCtxt) : MethodCallData :=
  { self with scope := stored_node_id tcx self.scope }

/-- `MethodData::normalize` (registered fields: `id, scope`). -/
def MethodData.normalize (self : MethodData) (tcx : TyCtxt) : MethodData :=
  { self with id := stored_node_id tcx self.id, scope := stored_node_id tcx self.scope }

/-- `ModData::normalize` (registered fields: `id, scope`). -/
def ModData.normalize (self : ModData) (tcx : TyCtxt) : ModData :=
  { self with id := stored_node_id tcx self.id, scope := stored_node_id tcx self.scope }

/-- `ModRefData::normalize` (registered field: `scope`). -/
def ModRefData.normalize (self : ModRefData) (tcx : TyCtxt) : ModRefData :=
  { self with scope := stored_node_id tcx self.scope }

/-- `StructData::normalize` (registered fields: `ctor_id, id, scope`). -/
def StructData.normalize (self : StructData) (tcx : TyCtxt) : StructData :=
  { self with ctor_id := stored_node_id tcx self.ctor_id,
              id := stored_node_id tcx self.id,
              scope := stored_node_id tcx self.scope }

/-- `StructVariantData::normalize` (registered fields: `id, scope`). -/
def StructVariantData.normalize (self : StructVariantData) (tcx : TyCtxt) : StructVariantData :=
  { self with id := stored_node_id tcx self.id, scope := stored_node_id tcx self.scope }

/-- `TupleVariantData::normalize` (registered fields: `id, scope`). -/
def TupleVariantData.normalize (self : TupleVariantData) (tcx : TyCtxt) : TupleVariantData :=
  { self with id := stored_node_id tcx self.id, scope := stored_node_id tcx self.scope }

/-- `TraitData::normalize` (registered fields: `id, scope`). -/
def TraitData.normalize (self : TraitData) (tcx : TyCtxt) : TraitData :=
  { self with id := stored_node_id tcx self.id, scope := stored_node_id tcx self.scope }

/-- `TypedefData::normalize` (registered field: `id`). -/
def TypedefData.normalize (self : TypedefData) (tcx : TyCtxt) : TypedefData :=
  { self with id := stored_node_id tcx self.id }

/-- `TypeRefData::normalize` (registered field: `scope`). -/
def TypeRefData.normalize (self : TypeRefData) (tcx : TyCtxt) : TypeRefData :=
  { self with scope := stored_node_id tcx self.scope }

/-- `UseData::normalize` (registered fields: `id, scope`). -/
def UseData.normalize (self : UseData) (tcx : TyCtxt) : UseData :=
  { self with id := stored_node_id tcx self.id, scope := stored_node_id tcx self.scope }

/-- `UseGlobData::normalize` (registered fields: `id, scope`). -/
def UseGlobData.normalize (self : UseGlobData) (tcx : TyCtxt) : UseGlobData :=
  { self with id := stored_node_id tcx self.id, scope := stored_node_id tcx self.scope }

/-- `VariableData::normalize` (registered field: `id` only; `scope` is not
registered in the source's `impl_normalize!` table). -/
def VariableData.normalize (self : VariableData) (tcx : TyCtxt) : VariableData :=
  { self with id := stored_node_id tcx self.id }

/-- `VariableRefData::normalize` (registered field: `scope`). -/
def VariableRefData.normalize (self : VariableRefData) (tcx : TyCtxt) : VariableRefData :=
  { self with scope := stored_node_id tcx self.scope }

/-! Claim-level definitions: the different-entities relation, the density
and no-wrap side conditions of the collision-freedom invariant, optional
reference-target views, and concrete resolver contexts, code maps and fact
records used as inputs. -/

/-- Two raw identifiers denote different logical entities within one unit's
normalization pass: if both resolve to `DefId`s, their in-unit indices
differ; if neither resolves, the node ids differ; and a resolved identifier
always denotes a different entity than an unresolved one (the resolver is
the single source of truth for global identity). -/
def denote_different (tcx : TyCtxt) (a b : Nat) : Prop :=
  (∀ d1 d2, tcx.opt_local_def_id a = some d1 → tcx.opt_local_def_id b = some d2 →
    d1.index ≠ d2.index) ∧
  (tcx.opt_local_def_id a = none → tcx.opt_local_def_id b = none → a ≠ b)

/-- Density of the global index space at one identifier: when it resolves,
its in-unit index lies in `[0, num_local_def_ids)` and fits in a `u32`
(`DefIndex` is a `u32`). -/
def global_dense_at (tcx : TyCtxt) (id : Nat) : Prop :=
  ∀ d, tcx.opt_local_def_id id = some d →
    d.index < tcx.num_local_def_ids ∧ d.index < 4294967296

/-- No `u32` wrap at one identifier: when it does not resolve, its offset
sum `id + num_local_def_ids` fits in a `u32`. -/
def local_no_wrap_at (tcx : TyCtxt) (id : Nat) : Prop :=
  tcx.opt_local_def_id id = none → id + tcx.num_local_def_ids < 4294967296

/-- View of `MethodCallData`'s reference target: the field is already
optional in the source. -/
def MethodCallData.refTarget (m : MethodCallData) : Option DefId :=
  m.ref_id

/-- View of `VariableRefData`'s reference target as an optional value: the
source field is a required `DefId`, so this view is always `some`. -/
def VariableRefData.refTarget (v : VariableRefData) : Option DefId :=
  some v.ref_id

/-- A unit with one global id: node 0 resolves to in-unit index 0 and
`num_local_def_ids = 1`. -/
def tcx0 : TyCtxt :=
  ⟨fun id => if id = 0 then some ⟨0, 0⟩ else none, 1⟩

/-- A unit with three global ids in which no queried node resolves. -/
def tcxN3 : TyCtxt :=
  ⟨fun _ => none, 3⟩

/-- A unit in which node 7 resolves to in-unit index 4. -/
def tcxG : TyCtxt :=
  ⟨fun id => if id = 7 then some ⟨0, 4⟩ else none, 10⟩

/-- A unit with `2^32` local def ids and no resolving node, exercising the
`as u32` wrap of the store step. -/
def tcxBig : TyCtxt :=
  ⟨fun _ => none, 4294967296⟩

/-- A code map whose lookups report file `a.rs`, line 1, and the byte
position itself as the 0-based column. -/
def cmA : CodeMap :=
  ⟨fun p => ⟨⟨"a.rs"⟩, 1, p⟩⟩

/-- A code map identical to `cmA` except for the file name. -/
def cmB : CodeMap :=
  ⟨fun p => ⟨⟨"b.rs"⟩, 1, p⟩⟩

/-- A code map agreeing with `cmA` on positions below 1000 and differing
above. -/
def cmA2 : CodeMap :=
  ⟨fun p => if p < 1000 then ⟨⟨"a.rs"⟩, 1, p⟩ else ⟨⟨"c.rs"⟩, 9, 0⟩⟩

/-- A code map for a line starting at byte 100 of `example.rs` (ASCII, so
the 0-based character column of byte `p` is `p - 100`). -/
def cmLine100 : CodeMap :=
  ⟨fun p => ⟨⟨"example.rs"⟩, 2, p - 100⟩⟩

/-- A concrete enum fact whose extent is the byte range [10, 20). -/
def e0 : EnumData :=
  ⟨1, "enum E", "crate::E", ⟨10, 20⟩, 0⟩

/-- A concrete enum fact with node id 0, used with `tcxBig`. -/
def eBig : EnumData :=
  ⟨0, "enum W", "crate::W", ⟨0, 1⟩, 0⟩

/-- A concrete variable fact whose `scope` node id is 5. -/
def v0 : VariableData :=
  ⟨1, "x", "crate::x", ⟨0, 4⟩, 5, "", ""⟩

/-- A concrete method-call fact with an unresolved `ref_id`. -/
def m0 : MethodCallData :=
  ⟨⟨1, 2⟩, 9, none, some ⟨0, 3⟩⟩

/-! Helper lemmas shared by several proofs. -/

theorem normalize_node_id_some {tcx : TyCtxt} {id : Nat} {d : DefId}
    (h : tcx.opt_local_def_id id = some d) :
    normalize_node_id tcx id = d.index := by
  simp [normalize_node_id, h]

theorem normalize_node_id_none {tcx : TyCtxt} {id : Nat}
    (h : tcx.opt_local_def_id id = none) :
    normalize_node_id tcx id = id + tcx.num_local_def_ids := by
  simp [normalize_node_id, h]

/-! Claim theorems. -/

/-- C2: identity preservation for global identifiers. Whenever the resolver
(`tcx.map.opt_local_def_id`) reports a `DefId` for a node, `normalize_node_id`
returns that `DefId`'s in-unit index verbatim; the `Some` arm of the match is
always preferred over the offset arm. -/
theorem global_id_identity_preservation (tcx : TyCtxt) (id : Nat) (d : DefId)
    (h : tcx.opt_local_def_id id = some d) :
    normalize_node_id tcx id = d.index :=
  normalize_node_id_some h

theorem global_id_identity_preservation_witness :
    normalize_node_id tcxG 7 = 4 :=
  global_id_identity_preservation tcxG 7 ⟨0, 4⟩ rfl

/-- C3: local identifier offsetting. When the resolver reports no `DefId`,
`normalize_node_id` returns the node id plus the unit's
`num_local_def_ids`. -/
theorem local_id_offset (tcx : TyCtxt) (id : Nat)
    (h : tcx.opt_local_def_id id = none) :
    normalize_node_id tcx id = id + tcx.num_local_def_ids :=
  normalize_node_id_none h

theorem local_id_offset_witness :
    normalize_node_id tcxN3 5 = 8 ∧ normalize_node_id tcxN3 0 = 3 :=
  ⟨(local_id_offset tcxN3 5 rfl).trans rfl, (local_id_offset tcxN3 0 rfl).trans rfl⟩

/-- C5 counterexample: fact records are not self-contained location records.
A fact's source extent is a transient `Span` of raw byte offsets, and
interpreting it under two different code maps yields two different `SpanData`
records, so the fact still requires the code map (the original source
context) to interpret. -/
theorem fact_span_not_self_contained :
    SpanData.from_span e0.span cmA ≠ SpanData.from_span e0.span cmB := by
  decide

/-- C5 amended: every fact record carries a transient `Span` (raw byte
offsets) as its source extent; the self-contained `SpanData` record is built
separately by `SpanData::from_span`, and its content is fully determined by
the span's byte offsets together with the code map's lookups at those two
offsets. -/
theorem from_span_determined_by_lookups (sp : Span) (cm1 cm2 : CodeMap)
    (hlo : cm1.lookup_char_pos sp.lo = cm2.lookup_char_pos sp.lo)
    (hhi : cm1.lookup_char_pos sp.hi = cm2.lookup_char_pos sp.hi) :
    SpanData.from_span sp cm1 = SpanData.from_span sp cm2 := by
  simp [SpanData.from_span, hlo, hhi]

theorem from_span_determined_by_lookups_witness :
    SpanData.from_span ⟨3, 7⟩ cmA = SpanData.from_span ⟨3, 7⟩ cmA2 :=
  from_span_determined_by_lookups ⟨3, 7⟩ cmA cmA2 rfl rfl

/-- C6 counterexample: not every reference fact variant represents an
unresolved target as an absent optional field. `MethodCallData` can hold an
absent `ref_id`, but `VariableRefData`'s target is a required `DefId`, so no
`VariableRefData` value has an absent reference target. -/
theorem variable_ref_target_required :
    (∃ m : MethodCallData, m.refTarget = none) ∧
    ¬ ∃ v : VariableRefData, v.refTarget = none :=
  ⟨⟨m0, rfl⟩, fun h => Exists.elim h fun _ hv => Option.noConfusion hv⟩

/-- C6 amended: reference variants with optional target fields (such as
`MethodCallData`) represent an unresolved target as `none`, never a sentinel
id; `normalize` leaves the absent target absent and still normalizes the
fact's `scope` field. Variants such as `VariableRefData` carry a required
`DefId` target instead. -/
theorem optional_ref_absent_preserved (tcx : TyCtxt) (m : MethodCallData)
    (h : m.ref_id = none) :
    (m.normalize tcx).ref_id = none ∧ (m.normalize tcx).decl_id = m.decl_id ∧
    (m.normalize tcx).span = m.span ∧
    (m.normalize tcx).scope = stored_node_id tcx m.scope :=
  ⟨(rfl : (m.normalize tcx).ref_id = m.ref_id).trans h, rfl, rfl, rfl⟩

theorem optional_ref_absent_preserved_witness :
    (m0.normalize tcxN3).ref_id = none ∧ (m0.normalize tcxN3).decl_id = m0.decl_id ∧
    (m0.normalize tcxN3).span = m0.span ∧
    (m0.normalize tcxN3).scope = stored_node_id tcxN3 m0.scope :=
  optional_ref_absent_preserved tcxN3 m0 rfl

/-- C7: `from_span` produces 1-based columns by adding 1 to the code map's
0-based column at each span endpoint and copies the 1-based line numbers
verbatim; in particular a span starting at byte 120 on a line starting at
byte 100 gets `column_start = 21`. -/
theorem column_one_based :
    (∀ (sp : Span) (cm : CodeMap),
      (SpanData.from_span sp cm).column_start = (cm.lookup_char_pos sp.lo).col + 1 ∧
      (SpanData.from_span sp cm).column_end = (cm.lookup_char_pos sp.hi).col + 1 ∧
      (SpanData.from_span sp cm).line_start = (cm.lookup_char_pos sp.lo).line ∧
      (SpanData.from_span sp cm).line_end = (cm.lookup_char_pos sp.hi).line) ∧
    (SpanData.from_span ⟨120, 135⟩ cmLine100).column_start = 21 :=
  ⟨fun _ _ => ⟨rfl, rfl, rfl, rfl⟩, rfl⟩

/-- C9: location encoding is deterministic. `from_span` is a pure function
of the span and the code map: identical inputs yield identical `SpanData`
records. -/
theorem from_span_deterministic (sp1 sp2 : Span) (cm1 cm2 : CodeMap)
    (hs : sp1 = sp2) (hc : cm1 = cm2) :
    SpanData.from_span sp1 cm1 = SpanData.from_span sp2 cm2 := by
  rw [hs, hc]

theorem from_span_deterministic_witness :
    SpanData.from_span ⟨10, 20⟩ cmA = SpanData.from_span ⟨10, 20⟩ cmA :=
  from_span_deterministic ⟨10, 20⟩ ⟨10, 20⟩ cmA cmA rfl rfl

/-- C1 counterexample: with the stored `as u32` cast, collision-freedom
fails even under the density assumption. In `tcx0` the global index space
`[0, 1)` is dense, node 0 is a global with index 0, node 4294967295 is a
local, they denote different entities, yet both store as 0 because
`4294967295 + 1` wraps modulo `2^32`. -/
theorem collision_freedom_cast_counterexample :
    global_dense_at tcx0 0 ∧ global_dense_at tcx0 4294967295 ∧
    denote_different tcx0 0 4294967295 ∧
    stored_node_id tcx0 0 = stored_node_id tcx0 4294967295 := by
  refine ⟨?_, ?_, ⟨?_, ?_⟩, by decide⟩
  · intro d h
    rw [show tcx0.opt_local_def_id 0 = some ⟨0, 0⟩ from rfl] at h
    cases h
    exact ⟨by decide, by decide⟩
  · intro d h
    rw [show tcx0.opt_local_def_id 4294967295 = none from rfl] at h
    cases h
  · intro d1 d2 h1 h2
    rw [show tcx0.opt_local_def_id 4294967295 = none from rfl] at h2
    cases h2
  · intro h1 _
    rw [show tcx0.opt_local_def_id 0 = some ⟨0, 0⟩ from rfl] at h1
    cases h1

/-- C1 amended: collision-freedom of the stored unified identifier space
holds for identifiers whose resolved in-unit indices lie densely in
`[0, num_local_def_ids)` and whose local offset sums do not wrap a `u32`:
for any two such identifiers denoting different logical entities, the stored
unified ids differ. -/
theorem collision_freedom_no_wrap (tcx : TyCtxt) (a b : Nat)
    (hda : global_dense_at tcx a) (hdb : global_dense_at tcx b)
    (hwa : local_no_wrap_at tcx a) (hwb : local_no_wrap_at tcx b)
    (hab : denote_different tcx a b) :
    stored_node_id tcx a ≠ stored_node_id tcx b := by
  obtain ⟨hgg, hll⟩ := hab
  unfold stored_node_id
  rcases h1 : tcx.opt_local_def_id a with _ | d1 <;>
    rcases h2 : tcx.opt_local_def_id b with _ | d2
  · rw [normalize_node_id_none h1, normalize_node_id_none h2]
    have hne : a ≠ b := hll h1 h2
    have ha : a + tcx.num_local_def_ids < 4294967296 := hwa h1
    have hb : b + tcx.num_local_def_ids < 4294967296 := hwb h2
    omega
  · rw [normalize_node_id_none h1, normalize_node_id_some h2]
    have ha : a + tcx.num_local_def_ids < 4294967296 := hwa h1
    have hb : d2.index < tcx.num_local_def_ids ∧ d2.index < 4294967296 := hdb d2 h2
    omega
  · rw [normalize_node_id_some h1, normalize_node_id_none h2]
    have ha : d1.index < tcx.num_local_def_ids ∧ d1.index < 4294967296 := hda d1 h1
    have hb : b + tcx.num_local_def_ids < 4294967296 := hwb h2
    omega
  · rw [normalize_node_id_some h1, normalize_node_id_some h2]
    have hne : d1.index ≠ d2.index := hgg d1 d2 h1 h2
    have ha : d1.index < tcx.num_local_def_ids ∧ d1.index < 4294967296 := hda d1 h1
    have hb : d2.index < tcx.num_local_def_ids ∧ d2.index < 4294967296 := hdb d2 h2
    omega

theorem collision_freedom_no_wrap_witness :
    stored_node_id tcx0 0 ≠ stored_node_id tcx0 5 := by
  have hd0 : global_dense_at tcx0 0 := by
    intro d h
    rw [show tcx0.opt_local_def_id 0 = some ⟨0, 0⟩ from rfl] at h
    cases h
    exact ⟨by decide, by decide⟩
  have hd5 : global_dense_at tcx0 5 := by
    intro d h
    rw [show tcx0.opt_local_def_id 5 = none from rfl] at h
    cases h
  have hw0 : local_no_wrap_at tcx0 0 := by
    intro h
    rw [show tcx0.opt_local_def_id 0 = some ⟨0, 0⟩ from rfl] at h
    cases h
  have hw5 : local_no_wrap_at tcx0 5 := by
    intro h
    decide
  have hdd : denote_different tcx0 0 5 := by
    constructor
    · intro d1 d2 h1 h2
      rw [show tcx0.opt_local_def_id 5 = none from rfl] at h2
      cases h2
    · intro h1 h2
      rw [show tcx0.opt_local_def_id 0 = some ⟨0, 0⟩ from rfl] at h1
      cases h1
  exact collision_freedom_no_wrap tcx0 0 5 hd0 hd5 hw0 hw5 hdd

/-- C4 counterexample: normalization is not exhaustive over identifier
fields. `VariableData`'s `scope` field is not registered in the
`impl_normalize!` table, so `normalize` leaves it at its raw value 5 even
though its unified id in `tcxN3` is 8. -/
theorem normalize_coverage_counterexample :
    (v0.normalize tcxN3).scope = 5 ∧ stored_node_id tcxN3 v0.scope = 8 ∧
    (v0.normalize tcxN3).scope ≠ stored_node_id tcxN3 v0.scope :=
  ⟨rfl, rfl, by decide⟩

/-- C4 amended: `normalize` rewrites exactly the identifier fields
registered in the source's `impl_normalize!` table with their stored unified
ids. The table is not exhaustive: `VariableData` registers only `id`, so its
`scope` node id is left unnormalized, and `ImplData2` — the type held by the
`Data` enum's impl variant — has no `normalize` at all (only the unused
`ImplData` does). -/
theorem normalize_registered_fields (tcx : TyCtxt) :
    (∀ d : EnumData, (d.normalize tcx).id = stored_node_id tcx d.id ∧
      (d.normalize tcx).scope = stored_node_id tcx d.scope) ∧
    (∀ d : ExternCrateData, (d.normalize tcx).id = stored_node_id tcx d.id ∧
      (d.normalize tcx).scope = stored_node_id tcx d.scope) ∧
    (∀ d : FunctionCallData, (d.normalize tcx).scope = stored_node_id tcx d.scope) ∧
    (∀ d : FunctionData, (d.normalize tcx).id = stored_node_id tcx d.id ∧
      (d.normalize tcx).scope = stored_node_id tcx d.scope) ∧
    (∀ d : FunctionRefData, (d.normalize tcx).scope = stored_node_id tcx d.scope) ∧
    (∀ d : ImplData, (d.normalize tcx).id = stored_node_id tcx d.id ∧
      (d.normalize tcx).scope = stored_node_id tcx d.scope) ∧
    (∀ d : InheritanceData, (d.normalize tcx).deriv_id = stored_node_id tcx d.deriv_id) ∧
    (∀ d : MacroUseData, (d.normalize tcx).scope = stored_node_id tcx d.scope) ∧
    (∀ d : MethodCallData, (d.normalize tcx).scope = stored_node_id tcx d.scope) ∧
    (∀ d : MethodData, (d.normalize tcx).id = stored_node_id tcx d.id ∧
      (d.normalize tcx).scope = stored_node_id tcx d.scope) ∧
    (∀ d : ModData, (d.normalize tcx).id = stored_node_id tcx d.id ∧
      (d.normalize tcx).scope = stored_node_id tcx d.scope) ∧
    (∀ d : ModRefData, (d.normalize tcx).scope = stored_node_id tcx d.scope) ∧
    (∀ d : StructData, (d.normalize tcx).ctor_id = stored_node_id tcx d.ctor_id ∧
      (d.normalize tcx).id = stored_node_id tcx d.id ∧
      (d.normalize tcx).scope = stored_node_id tcx d.scope) ∧
    (∀ d : StructVariantData, (d.normalize tcx).id = stored_node_id tcx d.id ∧
      (d.normalize tcx).scope = stored_node_id tcx d.scope) ∧
    (∀ d : TupleVariantData, (d.normalize tcx).id = stored_node_id tcx d.id ∧
      (d.normalize tcx).scope = stored_node_id tcx d.scope) ∧
    (∀ d : TraitData, (d.normalize tcx).id = stored_node_id tcx d.id ∧
      (d.normalize tcx).scope = stored_node_id tcx d.scope) ∧
    (∀ d : TypedefData, (d.normalize tcx).id = stored_node_id tcx d.id) ∧
    (∀ d : TypeRefData, (d.normalize tcx).scope = stored_node_id tcx d.scope) ∧
    (∀ d : UseData, (d.normalize tcx).id = stored_node_id tcx d.id ∧
      (d.normalize tcx).scope = stored_node_id tcx d.scope) ∧
    (∀ d : UseGlobData, (d.normalize tcx).id = stored_node_id tcx d.id ∧
      (d.normalize tcx).scope = stored_node_id tcx d.scope) ∧
    (∀ d : VariableData, (d.normalize tcx).id = stored_node_id tcx d.id ∧
      (d.normalize tcx).scope = d.scope) ∧
    (∀ d : VariableRefData, (d.normalize tcx).scope = stored_node_id tcx d.scope) :=
  ⟨fun _ => ⟨rfl, rfl⟩, fun _ => ⟨rfl, rfl⟩, fun _ => rfl, fun _ => ⟨rfl, rfl⟩,
   fun _ => rfl, fun _ => ⟨rfl, rfl⟩, fun _ => rfl, fun _ => rfl, fun _ => rfl,
   fun _ => ⟨rfl, rfl⟩, fun _ => ⟨rfl, rfl⟩, fun _ => rfl, fun _ => ⟨rfl, rfl, rfl⟩,
   fun _ => ⟨rfl, rfl⟩, fun _ => ⟨rfl, rfl⟩, fun _ => ⟨rfl, rfl⟩, fun _ => rfl,
   fun _ => rfl, fun _ => ⟨rfl, rfl⟩, fun _ => ⟨rfl, rfl⟩, fun _ => ⟨rfl, rfl⟩,
   fun _ => rfl⟩

/-- C8: normalization is a pure frame-preserving rewrite. For every fact
variant with a `normalize`, the function returns a new value in which every
field other than the registered identifier fields — spans, names, qualified
names, value strings and optional or required `DefId` references — is exactly
the input's. -/
theorem normalize_preserves_other_fields (tcx : TyCtxt) :
    (∀ d : EnumData, (d.normalize tcx).value = d.value ∧
      (d.normalize tcx).qualname = d.qualname ∧ (d.normalize tcx).span = d.span) ∧
    (∀ d : ExternCrateData, (d.normalize tcx).name = d.name ∧
      (d.normalize tcx).crate_num = d.crate_num ∧
      (d.normalize tcx).location = d.location ∧ (d.normalize tcx).span = d.span) ∧
    (∀ d : FunctionCallData, (d.normalize tcx).span = d.span ∧
      (d.normalize tcx).ref_id = d.ref_id) ∧
    (∀ d : FunctionData, (d.normalize tcx).name = d.name ∧
      (d.normalize tcx).qualname = d.qualname ∧
      (d.normalize tcx).declaration = d.declaration ∧ (d.normalize tcx).span = d.span) ∧
    (∀ d : FunctionRefData, (d.normalize tcx).span = d.span ∧
      (d.normalize tcx).ref_id = d.ref_id) ∧
    (∀ d : ImplData, (d.normalize tcx).span = d.span ∧
      (d.normalize tcx).trait_ref = d.trait_ref ∧
      (d.normalize tcx).self_ref = d.self_ref) ∧
    (∀ d : InheritanceData, (d.normalize tcx).span = d.span ∧
      (d.normalize tcx).base_id = d.base_id) ∧
    (∀ d : MacroUseData, (d.normalize tcx).span = d.span ∧
      (d.normalize tcx).name = d.name ∧ (d.normalize tcx).qualname = d.qualname ∧
      (d.normalize tcx).callee_span = d.callee_span ∧
      (d.normalize tcx).imported = d.imported) ∧
    (∀ d : MethodCallData, (d.normalize tcx).span = d.span ∧
      (d.normalize tcx).ref_id = d.ref_id ∧ (d.normalize tcx).decl_id = d.decl_id) ∧
    (∀ d : MethodData, (d.normalize tcx).qualname = d.qualname ∧
      (d.normalize tcx).span = d.span) ∧
    (∀ d : ModData, (d.normalize tcx).name = d.name ∧
      (d.normalize tcx).qualname = d.qualname ∧ (d.normalize tcx).span = d.span ∧
      (d.normalize tcx).filename = d.filename) ∧
    (∀ d : ModRefData, (d.normalize tcx).span = d.span ∧
      (d.normalize tcx).ref_id = d.ref_id ∧ (d.normalize tcx).qualname = d.qualname) ∧
    (∀ d : StructData, (d.normalize tcx).span = d.span ∧
      (d.normalize tcx).qualname = d.qualname ∧ (d.normalize tcx).value = d.value) ∧
    (∀ d : StructVariantData, (d.normalize tcx).span = d.span ∧
      (d.normalize tcx).qualname = d.qualname ∧
      (d.normalize tcx).type_value = d.type_value ∧
      (d.normalize tcx).value = d.value) ∧
    (∀ d : TupleVariantData, (d.normalize tcx).span = d.span ∧
      (d.normalize tcx).name = d.name ∧ (d.normalize tcx).qualname = d.qualname ∧
      (d.normalize tcx).type_value = d.type_value ∧
      (d.normalize tcx).value = d.value) ∧
    (∀ d : TraitData, (d.normalize tcx).span = d.span ∧
      (d.normalize tcx).qualname = d.qualname ∧ (d.normalize tcx).value = d.value) ∧
    (∀ d : TypedefData, (d.normalize tcx).span = d.span ∧
      (d.normalize tcx).qualname = d.qualname ∧ (d.normalize tcx).value = d.value) ∧
    (∀ d : TypeRefData, (d.normalize tcx).span = d.span ∧
      (d.normalize tcx).ref_id = d.ref_id ∧ (d.normalize tcx).qualname = d.qualname) ∧
    (∀ d : UseData, (d.normalize tcx).span = d.span ∧
      (d.normalize tcx).name = d.name ∧ (d.normalize tcx).mod_id = d.mod_id) ∧
    (∀ d : UseGlobData, (d.normalize tcx).span = d.span ∧
      (d.normalize tcx).names = d.names) ∧
    (∀ d : VariableData, (d.normalize tcx).name = d.name ∧
      (d.normalize tcx).qualname = d.qualname ∧ (d.normalize tcx).span = d.span ∧
      (d.normalize tcx).scope = d.scope ∧ (d.normalize tcx).value = d.value ∧
      (d.normalize tcx).type_value = d.type_value) ∧
    (∀ d : VariableRefData, (d.normalize tcx).name = d.name ∧
      (d.normalize tcx).span = d.span ∧ (d.normalize tcx).ref_id = d.ref_id) :=
  ⟨fun _ => ⟨rfl, rfl, rfl⟩, fun _ => ⟨rfl, rfl, rfl, rfl⟩, fun _ => ⟨rfl, rfl⟩,
   fun _ => ⟨rfl, rfl, rfl, rfl⟩, fun _ => ⟨rfl, rfl⟩, fun _ => ⟨rfl, rfl, rfl⟩,
   fun _ => ⟨rfl, rfl⟩, fun _ => ⟨rfl, rfl, rfl, rfl, rfl⟩, fun _ => ⟨rfl, rfl, rfl⟩,
   fun _ => ⟨rfl, rfl⟩, fun _ => ⟨rfl, rfl, rfl, rfl⟩, fun _ => ⟨rfl, rfl, rfl⟩,
   fun _ => ⟨rfl, rfl, rfl⟩, fun _ => ⟨rfl, rfl, rfl, rfl⟩,
   fun _ => ⟨rfl, rfl, rfl, rfl, rfl⟩, fun _ => ⟨rfl, rfl, rfl⟩,
   fun _ => ⟨rfl, rfl, rfl⟩, fun _ => ⟨rfl, rfl, rfl⟩, fun _ => ⟨rfl, rfl, rfl⟩,
   fun _ => ⟨rfl, rfl⟩, fun _ => ⟨rfl, rfl, rfl, rfl, rfl, rfl⟩,
   fun _ => ⟨rfl, rfl, rfl⟩⟩

/-- C10: unified identifiers are stored modulo `2^32`. For a local node
whose offset sum reaches `2^32`, the stored field value is the sum reduced
modulo `2^32` and differs from `normalize_node_id`'s result; consequently two
distinct raw identifiers (the global node 0 and the local node 4294967295 of
`tcx0`, distinct under `normalize_node_id`) are stored as the same value. -/
theorem stored_id_wraps_u32 (tcx : TyCtxt) (e : EnumData)
    (h : tcx.opt_local_def_id e.id = none)
    (hw : 4294967296 ≤ e.id + tcx.num_local_def_ids) :
    (e.normalize tcx).id = (e.id + tcx.num_local_def_ids) % 4294967296 ∧
    (e.normalize tcx).id ≠ normalize_node_id tcx e.id ∧
    normalize_node_id tcx0 0 ≠ normalize_node_id tcx0 4294967295 ∧
    stored_node_id tcx0 0 = stored_node_id tcx0 4294967295 := by
  have h1 : (e.normalize tcx).id = stored_node_id tcx e.id := rfl
  have h2 := normalize_node_id_none h
  refine ⟨?_, ?_, by decide, by decide⟩
  · rw [h1, stored_node_id, h2]
  · rw [h1, stored_node_id, h2]
    omega

theorem stored_id_wraps_u32_witness :
    (eBig.normalize tcxBig).id = (eBig.id + tcxBig.num_local_def_ids) % 4294967296 ∧
    (eBig.normalize tcxBig).id ≠ normalize_node_id tcxBig eBig.id ∧
    normalize_node_id tcx0 0 ≠ normalize_node_id tcx0 4294967295 ∧
    stored_node_id tcx0 0 = stored_node_id tcx0 4294967295 :=
  stored_id_wraps_u32 tcxBig eBig rfl (by decide)
